import Mathlib

/-
  Shallow embedding of receiveTM.c (MOSES telemetry ground station).

  The embedded part is the demultiplexer loop of main (receiveTM.c lines
  256-393), the startup recovery and catalog creation (lines 202-231), and
  the break/teardown/exit paths (lines 269-285, 363-369, 380-387, 395-409).
  The Synclink device (open/ioctl/read) is the external Link collaborator:
  its per-iteration outputs (CRC counter sample, read result, fwrite return
  count, fflush success, errno, wall-clock timestamp) are inputs of each
  loop iteration, packaged in an Event.  File contents are modelled as byte
  lists; a stdio stream in r+ mode overwrites bytes at its cursor.
  Rename/open/close/flush calls on local files are modelled as succeeding
  (their failure paths are not exercised by any claim); the calls the code
  issues are recorded in an Action list so that ordering and handle
  discipline are provable.
-/

namespace ReceiveTM

/-- Byte sequence of a string literal (ASCII code points). -/
def bytesOf (s : String) : List Nat := s.data.map Char.toNat

/-- receiveTM.c line 222: the fixed XML declaration written on catalog creation. -/
def XML_DECL : List Nat := bytesOf "<?xml version=\"1.0\" encoding=\"ASCII\" standalone=\"yes\"?>\n"

/-- receiveTM.c line 223: the opening root element plus blank line. -/
def CATALOG_OPEN : List Nat := bytesOf "<CATALOG>\n\n"

/-- receiveTM.c lines 224 and 309: the closing root element, 11 bytes. -/
def CATALOG_CLOSE : List Nat := bytesOf "</CATALOG>\n"

/-- The newline byte written by fprintf(outxml, "\n") at line 372. -/
def NL : List Nat := [10]

/-- receiveTM.c line 92/321: the 10-byte content marker "<ROEIMAGE>". -/
def ROEIMAGE : List Nat := bytesOf "<ROEIMAGE>"

/-- Content of the catalog file right after creation (lines 222-224). -/
def freshCatalog : List Nat := XML_DECL ++ CATALOG_OPEN ++ CATALOG_CLOSE

/-- Cursor position after fseek(outxml, -11, SEEK_END) (lines 227, 345):
    11 bytes back from end-of-file, i.e. at the first byte of "</CATALOG>\n". -/
def freshCatalogPos : Nat := freshCatalog.length - 11

/-- An fwrite of data at cursor position pos into a file opened r+:
    bytes at pos are overwritten, the file grows if the write passes its end. -/
def writeAt (content : List Nat) (pos : Nat) (data : List Nat) : List Nat :=
  content.take pos ++ data ++ content.drop (pos + data.length)

/-- receiveTM.c lines 320-321: strncpy 10 bytes out of buf (memset to zero
    before the read, so the payload is zero padded), then strncmp with
    "<ROEIMAGE>" over 10 bytes.  Matches exactly when the first 10 bytes of
    the zero-padded receive buffer equal the marker. -/
def sniff (payload : List Nat) : Bool :=
  (payload ++ List.replicate 10 0).take 10 == ROEIMAGE

/-- The bytes sprintf "%s" reads out of the zero-padded receive buffer
    (line 295): the payload up to its first zero byte. -/
def cstr (payload : List Nat) : List Nat :=
  payload.takeWhile (fun b => b != 0)

/-- The four packet kinds of the demultiplexer (spec section 3). -/
inductive PacketKind where
  | ImageTerminator
  | CatalogTerminator
  | CatalogFragment
  | ImageFragment
deriving Repr, DecidableEq

/-- The classification implicit in the branch ladder of the loop
    (receiveTM.c lines 286, 303, 316-321, 358, 375), as a function of the
    xml_check state variable and the packet payload (length = byte count
    returned by read).  Length tests come first, exactly as in the code. -/
def classify (xc : Nat) (payload : List Nat) : PacketKind :=
  if payload.length = 16 then PacketKind.ImageTerminator
  else if payload.length = 14 then PacketKind.CatalogTerminator
  else if xc = 1 then
    (if sniff payload then PacketKind.CatalogFragment else PacketKind.ImageFragment)
  else if xc = 2 then PacketKind.CatalogFragment
  else PacketKind.ImageFragment

/-- Destination paths of rename calls. -/
inductive ArchPath where
  | imageArch (name : List Nat)
  | xmlArch (timestamp : String)
deriving Repr, DecidableEq

/-- Observable calls the loop makes, in program order. -/
inductive Action where
  | logCrcFail
  | logDiag (msg : String)
  | flushImage
  | flushCatalog
  | closeImage
  | closeCatalog
  | writeCatalogFooter
  | renameImageTo (p : ArchPath)
  | renameCatalogTo (p : ArchPath)
  | openImageStaging
  | openCatalogLive
  | deassertLines
  | closeDevice
deriving Repr, DecidableEq

/-- The mutable state of main that the loop reads and writes, plus the
    modelled filesystem.  Field names follow the C locals. -/
structure MachState where
  xml_check : Nat
  xmlCount : Nat
  totalFileSize : Nat
  index : Nat
  imageStaging : List Nat
  imagePos : Nat
  catalogFile : List Nat
  catalogPos : Nat
  catalogOpen : Bool
  archives : List (ArchPath × List Nat)
deriving Repr, DecidableEq

/-- How a loop iteration ends: fall through to the next iteration, break
    out of the loop (the code then runs the teardown at lines 395-405 and
    reaches return 0), or return directly from main with a code
    (the fflush-failure paths at lines 369 and 386). -/
inductive BreakReason where
  | interrupted
  | readError
  | zeroRead
  | partialWrite
deriving Repr, DecidableEq

inductive StepRes where
  | next (s : MachState)
  | brk (reason : BreakReason) (s : MachState)
  | ret (code : Nat) (s : MachState)
deriving Repr, DecidableEq

def StepRes.nextState : StepRes → Option MachState
  | StepRes.next s => some s
  | _ => none

/-- receiveTM.c lines 286-302: the rc == 16 image-terminator branch.
    fflush(fp); fclose(fp); rename staging to the name carried in the
    payload; reopen an empty staging file; xml_check = 1; reset counters. -/
def imageTermStep (s : MachState) (payload : List Nat) : List Action × StepRes :=
  ([Action.flushImage, Action.closeImage,
    Action.renameImageTo (ArchPath.imageArch (cstr payload)), Action.openImageStaging],
   StepRes.next { s with
     archives := (ArchPath.imageArch (cstr payload), s.imageStaging) :: s.archives,
     imageStaging := [], imagePos := 0,
     xml_check := 1, totalFileSize := 0, index := 0 })

/-- receiveTM.c lines 303-315: the rc == 14 catalog-terminator branch.
    fprintf(outxml, "</CATALOG>\n"); fflush(outxml); fclose(outxml);
    xml_check = 0; reset counters.  The branch performs these calls
    unconditionally: it never tests whether outxml is still open. -/
def catalogTermStep (s : MachState) : List Action × StepRes :=
  ([Action.writeCatalogFooter, Action.flushCatalog, Action.closeCatalog],
   StepRes.next { s with
     catalogFile := writeAt s.catalogFile s.catalogPos CATALOG_CLOSE,
     catalogPos := s.catalogPos + CATALOG_CLOSE.length,
     catalogOpen := false,
     xml_check := 0, totalFileSize := 0, index := 0 })

/-- receiveTM.c lines 316-357: when xml_check == 1 the first bytes of the
    payload are sniffed; a match archives the previous catalog round (if
    xmlCount > 0: rename, recreate with header, fseek -11 from end) and
    commits to the catalog stream (xml_check = 2), a mismatch commits to the
    image stream (xml_check = 0).  Any other xml_check value is untouched. -/
def sniffPhase (s : MachState) (payload : List Nat) (ts : String) : List Action × MachState :=
  if s.xml_check = 1 then
    if sniff payload then
      if s.xmlCount > 0 then
        ([Action.renameCatalogTo (ArchPath.xmlArch ts), Action.openCatalogLive],
         { s with
           archives := (ArchPath.xmlArch ts, s.catalogFile) :: s.archives,
           catalogFile := freshCatalog, catalogPos := freshCatalogPos, catalogOpen := true,
           xmlCount := 1, xml_check := 2 })
      else
        ([], { s with xmlCount := 1, xml_check := 2 })
    else
      ([], { s with xml_check := 0 })
  else ([], s)

/-- receiveTM.c lines 358-374: the catalog-fragment write.
    count = fwrite(buf, 1, rc, outxml); count != rc breaks the loop;
    then fflush(fp) -- the image handle, not outxml -- whose failure
    returns errno from main; then fprintf(outxml, "\n"); counters bump. -/
def catalogWriteStep (s : MachState) (payload : List Nat) (wcount : Nat)
    (flushOk : Bool) (eno : Nat) : List Action × StepRes :=
  let rc := payload.length
  let wr := min wcount rc
  let s1 := { s with
    catalogFile := writeAt s.catalogFile s.catalogPos (payload.take wr),
    catalogPos := s.catalogPos + wr }
  if wcount ≠ rc then
    ([Action.logDiag "fwrite error"], StepRes.brk BreakReason.partialWrite s1)
  else if flushOk then
    ([Action.flushImage],
     StepRes.next { s1 with
       catalogFile := writeAt s1.catalogFile s1.catalogPos NL,
       catalogPos := s1.catalogPos + 1,
       totalFileSize := s1.totalFileSize + wcount, index := s1.index + 1 })
  else
    ([Action.flushImage, Action.logDiag "fflush error"], StepRes.ret eno s1)

/-- receiveTM.c lines 375-391: the image-fragment write.
    count = fwrite(buf, 1, rc, fp); count != rc breaks the loop; then
    fflush(fp) whose failure returns errno; counters bump. -/
def imageWriteStep (s : MachState) (payload : List Nat) (wcount : Nat)
    (flushOk : Bool) (eno : Nat) : List Action × StepRes :=
  let rc := payload.length
  let wr := min wcount rc
  let s1 := { s with
    imageStaging := writeAt s.imageStaging s.imagePos (payload.take wr),
    imagePos := s.imagePos + wr }
  if wcount ≠ rc then
    ([Action.logDiag "fwrite error"], StepRes.brk BreakReason.partialWrite s1)
  else if flushOk then
    ([Action.flushImage],
     StepRes.next { s1 with
       totalFileSize := s1.totalFileSize + wcount, index := s1.index + 1 })
  else
    ([Action.flushImage, Action.logDiag "fflush error"], StepRes.ret eno s1)

/-- receiveTM.c lines 316-392: the else-branch for a data packet (length
    neither 16 nor 14): sniff phase, then dispatch on the updated
    xml_check (== 2 writes to the catalog, anything else to the image). -/
def dataStep (s : MachState) (payload : List Nat) (ts : String) (wcount : Nat)
    (flushOk : Bool) (eno : Nat) : List Action × StepRes :=
  let p := sniffPhase s payload ts
  if p.2.xml_check = 2 then
    (p.1 ++ (catalogWriteStep p.2 payload wcount flushOk eno).1,
     (catalogWriteStep p.2 payload wcount flushOk eno).2)
  else
    (p.1 ++ (imageWriteStep p.2 payload wcount flushOk eno).1,
     (imageWriteStep p.2 payload wcount flushOk eno).2)

/-- Result of the blocking read (receiveTM.c line 266): a negative return
    with errno, a zero-byte return, or payload bytes (rc = length). -/
inductive ReadResult where
  | err (eno : Nat)
  | eof
  | data (payload : List Nat)
deriving Repr, DecidableEq

/-- receiveTM.c lines 264-392: everything after the CRC check in one loop
    iteration.  ts is the wall clock read when archiving a catalog; wcount
    is the return of the fragment fwrite, if one happens; flushOk and eno
    model the fragment fflush. -/
def mainStep (s : MachState) (rd : ReadResult) (ts : String) (wcount : Nat)
    (flushOk : Bool) (eno : Nat) : List Action × StepRes :=
  match rd with
  | ReadResult.err e =>
    if e = 4 then
      ([Action.logDiag "receiveTM interrupted"], StepRes.brk BreakReason.interrupted s)
    else
      ([Action.logDiag "read error"], StepRes.brk BreakReason.readError s)
  | ReadResult.eof =>
    ([Action.logDiag "program ran before failing",
      Action.logDiag "read returned with no data - set NONBLOCK mode to continue"],
     StepRes.brk BreakReason.zeroRead s)
  | ReadResult.data payload =>
    if payload.length = 16 then imageTermStep s payload
    else if payload.length = 14 then catalogTermStep s
    else dataStep s payload ts wcount flushOk eno

/-- Per-iteration inputs from the environment (Link, clock, local disk). -/
structure Event where
  crc : Nat
  rd : ReadResult
  ts : String
  wcount : Nat
  flushOk : Bool
  eno : Nat
deriving Repr, DecidableEq

/-- receiveTM.c lines 257-262 then 264-392: one full loop iteration.
    The CRC counter is sampled first; a change from the running baseline
    crctemp is logged; the baseline always becomes the new sample; then the
    read and the packet handling run.  crctemp is a separate local of main:
    the packet-handling code never reads it. -/
def loopIter (crctemp : Nat) (s : MachState) (e : Event) : List Action × Nat × StepRes :=
  ((if e.crc ≠ crctemp then [Action.logCrcFail] else []) ++
     (mainStep s e.rd e.ts e.wcount e.flushOk e.eno).1,
   e.crc,
   (mainStep s e.rd e.ts e.wcount e.flushOk e.eno).2)

/-- receiveTM.c lines 395-405: code run after a break: printf, deassert
    RTS/DTR via ioctl, close(fd), fclose(fp); then main returns 0. -/
def teardownActs : List Action :=
  [Action.logDiag "Turn off RTS and DTR serial outputs",
   Action.deassertLines, Action.closeDevice, Action.closeImage]

inductive RunResult where
  | running (crctemp : Nat) (s : MachState) (acts : List Action)
  | exited (code : Nat) (acts : List Action)
deriving Repr, DecidableEq

def RunResult.exitCode : RunResult → Option Nat
  | RunResult.exited code _ => some code
  | _ => none

def RunResult.catalogOf : RunResult → List Nat
  | RunResult.running _ s _ => s.catalogFile
  | RunResult.exited _ _ => []

/-- Run the loop over a list of environment events.  A break leads through
    the teardown to return 0 (lines 395-409, modelling the teardown ioctl as
    succeeding); a direct return exits with its code and skips teardown. -/
def runEvents (ct : Nat) (s : MachState) (acc : List Action) : List Event → RunResult
  | [] => RunResult.running ct s acc
  | e :: es =>
    match loopIter ct s e with
    | (a, ct2, StepRes.next s2) => runEvents ct2 s2 (acc ++ a) es
    | (a, _, StepRes.brk _ _) => RunResult.exited 0 (acc ++ a ++ teardownActs)
    | (a, _, StepRes.ret code _) => RunResult.exited code (acc ++ a)

/-- Filesystem state found at process start. -/
structure InitFs where
  catalogAtLive : Option (List Nat)
  imageAtStaging : Option (List Nat)

/-- receiveTM.c lines 202-231: startup.  fp = openFile(image_path) (creates
    the staging file if absent, keeps existing bytes, cursor at 0); if a
    catalog exists at the live path it is renamed to a timestamped name
    under xml_archive and xmlCount is set to 1; then the live catalog is
    created fresh: header written, cursor seeked 11 bytes back from end. -/
def startup (fs : InitFs) (ts : String) : List Action × MachState :=
  match fs.catalogAtLive with
  | some old =>
    ([Action.openImageStaging, Action.renameCatalogTo (ArchPath.xmlArch ts),
      Action.openCatalogLive],
     { xml_check := 0, xmlCount := 1, totalFileSize := 0, index := 0,
       imageStaging := fs.imageAtStaging.getD [], imagePos := 0,
       catalogFile := freshCatalog, catalogPos := freshCatalogPos, catalogOpen := true,
       archives := [(ArchPath.xmlArch ts, old)] })
  | none =>
    ([Action.openImageStaging, Action.openCatalogLive],
     { xml_check := 0, xmlCount := 0, totalFileSize := 0, index := 0,
       imageStaging := fs.imageAtStaging.getD [], imagePos := 0,
       catalogFile := freshCatalog, catalogPos := freshCatalogPos, catalogOpen := true,
       archives := [] })

/-- A clean start: no catalog at the live path, no leftover staging file. -/
def initClean : MachState := (startup ⟨none, none⟩ "t0").2

/-- Event carrying a data packet, a matching CRC sample, a full write and a
    successful flush. -/
def dataEv (c : Nat) (p : List Nat) : Event :=
  ⟨c, ReadResult.data p, "t1", p.length, true, 0⟩

/-- A state in the committed-to-catalog mode (xml_check = 2) with a freshly
    created catalog whose cursor sits 11 bytes before end-of-file. -/
def sWritingCatalog : MachState :=
  { xml_check := 2, xmlCount := 1, totalFileSize := 0, index := 0,
    imageStaging := [], imagePos := 0,
    catalogFile := freshCatalog, catalogPos := freshCatalogPos, catalogOpen := true,
    archives := [] }

/-- Writing at the end of a file appends. -/
theorem writeAt_at_end (c d : List Nat) : writeAt c c.length d = c ++ d := by
  unfold writeAt
  rw [List.take_length, List.drop_eq_nil_of_le (by omega)]
  simp

/-- The CRC-failure log line is only ever produced by the CRC check at the
    top of the loop, never by the packet-handling code. -/
theorem crcFail_not_in_sniffPhase (s : MachState) (p : List Nat) (ts : String) :
    Action.logCrcFail ∉ (sniffPhase s p ts).1 := by
  unfold sniffPhase
  split <;> [skip; simp]
  split <;> [skip; simp]
  split <;> simp

theorem crcFail_not_in_catalogWriteStep (s : MachState) (p : List Nat) (w : Nat)
    (f : Bool) (e : Nat) : Action.logCrcFail ∉ (catalogWriteStep s p w f e).1 := by
  unfold catalogWriteStep
  dsimp only
  split_ifs <;> simp

theorem crcFail_not_in_imageWriteStep (s : MachState) (p : List Nat) (w : Nat)
    (f : Bool) (e : Nat) : Action.logCrcFail ∉ (imageWriteStep s p w f e).1 := by
  unfold imageWriteStep
  dsimp only
  split_ifs <;> simp

theorem crcFail_not_in_mainStep (s : MachState) (rd : ReadResult) (ts : String)
    (w : Nat) (f : Bool) (e : Nat) : Action.logCrcFail ∉ (mainStep s rd ts w f e).1 := by
  cases rd with
  | err en =>
    by_cases h : en = 4 <;> simp [mainStep, h]
  | eof => simp [mainStep]
  | data p =>
    simp only [mainStep]
    split
    · simp [imageTermStep]
    · split
      · simp [catalogTermStep]
      · simp only [dataStep]
        split <;>
        · simp only [List.mem_append, not_or]
          refine ⟨crcFail_not_in_sniffPhase s p ts, ?_⟩
          first
          | exact crcFail_not_in_catalogWriteStep _ p w f e
          | exact crcFail_not_in_imageWriteStep _ p w f e

/-- C1: For every received packet whose length equals the fixed
    image-terminator length (16 bytes), classification yields
    ImageTerminator, and for every packet whose length equals the fixed
    catalog-terminator length (14 bytes), classification yields
    CatalogTerminator, regardless of the packet's payload content and of the
    demultiplexer's state: the loop dispatches straight to the corresponding
    terminator handler, before any content sniffing happens. -/
theorem c1_length_classification_first (xc : Nat) (p : List Nat) (s : MachState)
    (ts : String) (w : Nat) (f : Bool) (e : Nat) :
    (p.length = 16 → classify xc p = PacketKind.ImageTerminator
       ∧ mainStep s (ReadResult.data p) ts w f e = imageTermStep s p)
  ∧ (p.length = 14 → classify xc p = PacketKind.CatalogTerminator
       ∧ mainStep s (ReadResult.data p) ts w f e = catalogTermStep s) := by
  refine ⟨fun h => ⟨?_, ?_⟩, fun h => ⟨?_, ?_⟩⟩ <;> simp [classify, mainStep, h]

/-- C1 witness: 16-byte and 14-byte payloads that both start with the
    catalog content marker are still classified by length, in the ambiguous
    state xc = 1 where content sniffing would otherwise apply. -/
theorem c1_witness :
    sniff (bytesOf "<ROEIMAGE>abcdef") = true
  ∧ classify 1 (bytesOf "<ROEIMAGE>abcdef") = PacketKind.ImageTerminator
  ∧ sniff (bytesOf "<ROEIMAGE>abcd") = true
  ∧ classify 1 (bytesOf "<ROEIMAGE>abcd") = PacketKind.CatalogTerminator := by
  refine ⟨by decide, ?_, by decide, ?_⟩
  · exact ((c1_length_classification_first 1 (bytesOf "<ROEIMAGE>abcdef")
      initClean "t1" 0 true 0).1 (by decide)).1
  · exact ((c1_length_classification_first 1 (bytesOf "<ROEIMAGE>abcd")
      initClean "t1" 0 true 0).2 (by decide)).1

/-- C5: on process start, an existing catalog at the live path is renamed
    (content preserved) to a timestamped name under xml_archive before a
    fresh catalog is created at the live path; with no pre-existing catalog
    there is no archival rename and the fresh catalog is created directly. -/
theorem c5_startup_recovery (old : List Nat) (img : Option (List Nat)) (ts : String) :
    ((startup ⟨some old, img⟩ ts).2.archives = [(ArchPath.xmlArch ts, old)]
     ∧ (startup ⟨some old, img⟩ ts).2.catalogFile = freshCatalog
     ∧ (startup ⟨some old, img⟩ ts).2.catalogOpen = true
     ∧ Action.renameCatalogTo (ArchPath.xmlArch ts) ∈ (startup ⟨some old, img⟩ ts).1)
  ∧ ((startup ⟨none, img⟩ ts).2.archives = []
     ∧ (startup ⟨none, img⟩ ts).2.catalogFile = freshCatalog
     ∧ (startup ⟨none, img⟩ ts).2.catalogOpen = true
     ∧ ∀ q, Action.renameCatalogTo q ∉ (startup ⟨none, img⟩ ts).1) := by
  refine ⟨⟨rfl, rfl, rfl, ?_⟩, rfl, rfl, rfl, fun q => ?_⟩ <;> simp [startup]

/-- C8: each loop iteration samples the CRC counter before the receive; the
    stored baseline always becomes the sample; the CRC-failure line is
    logged exactly when the sample differs from the previous baseline; and
    the packet handling is byte-for-byte the same whatever the baseline and
    sample were: a CRC mismatch never breaks the loop or moves the
    demultiplexer state. -/
theorem c8_crc_sample_diagnostic_only (ct : Nat) (s : MachState) (e : Event) :
    (loopIter ct s e).2.1 = e.crc
  ∧ (Action.logCrcFail ∈ (loopIter ct s e).1 ↔ e.crc ≠ ct)
  ∧ (loopIter ct s e).1 =
      (if e.crc ≠ ct then [Action.logCrcFail] else [])
        ++ (mainStep s e.rd e.ts e.wcount e.flushOk e.eno).1
  ∧ (loopIter ct s e).2.2 = (mainStep s e.rd e.ts e.wcount e.flushOk e.eno).2
  ∧ (∀ ct2, (loopIter ct s e).2.2 = (loopIter ct2 s e).2.2) := by
  refine ⟨rfl, ?_, rfl, rfl, fun ct2 => rfl⟩
  unfold loopIter
  constructor
  · intro hmem
    rcases List.mem_append.mp hmem with h | h
    · by_contra hc
      simp [hc] at h
    · exact absurd h (crcFail_not_in_mainStep s e.rd e.ts e.wcount e.flushOk e.eno)
  · intro hne
    exact List.mem_append.mpr (Or.inl (by simp [hne]))

/-- C10: the catalog-terminator branch runs for every length-14 packet in
    every state and performs writeCatalogFooter, fflush and fclose on the
    catalog handle without checking that a catalog is open; the resulting
    state always has catalogOpen = false and xml_check = 0, so a second
    CatalogTerminator with no intervening catalog start repeats those calls
    on the already-closed handle. -/
theorem c10_catalog_terminator_unguarded (s : MachState) (p : List Nat) (ts : String)
    (w : Nat) (f : Bool) (e : Nat) (hp : p.length = 14) :
    mainStep s (ReadResult.data p) ts w f e = catalogTermStep s
  ∧ (catalogTermStep s).1
      = [Action.writeCatalogFooter, Action.flushCatalog, Action.closeCatalog]
  ∧ ∃ s2, (catalogTermStep s).2 = StepRes.next s2
      ∧ s2.catalogOpen = false ∧ s2.xml_check = 0 := by
  refine ⟨by simp [mainStep, hp], rfl, _, rfl, rfl, rfl⟩

/-- The state left by a first CatalogTerminator received right after a
    clean start: the catalog handle is closed, xml_check = 0. -/
def afterFirstCatalogTerm : MachState :=
  { xml_check := 0, xmlCount := 0, totalFileSize := 0, index := 0,
    imageStaging := [], imagePos := 0,
    catalogFile := freshCatalog, catalogPos := freshCatalog.length, catalogOpen := false,
    archives := [] }

/-- C10 witness: afterFirstCatalogTerm really is the state a first length-14
    packet leaves from a clean start, its handle flag is closed, and a
    second length-14 packet still takes the same footer/flush/close path. -/
theorem c10_witness :
    (catalogTermStep initClean).2 = StepRes.next afterFirstCatalogTerm
  ∧ afterFirstCatalogTerm.catalogOpen = false
  ∧ (mainStep afterFirstCatalogTerm (ReadResult.data (List.replicate 14 0)) "t1" 0 true 0
       = catalogTermStep afterFirstCatalogTerm
     ∧ (catalogTermStep afterFirstCatalogTerm).1
         = [Action.writeCatalogFooter, Action.flushCatalog, Action.closeCatalog]
     ∧ ∃ s2, (catalogTermStep afterFirstCatalogTerm).2 = StepRes.next s2
         ∧ s2.catalogOpen = false ∧ s2.xml_check = 0) :=
  ⟨by decide, by decide,
   c10_catalog_terminator_unguarded afterFirstCatalogTerm (List.replicate 14 0)
     "t1" 0 true 0 (by decide)⟩

/-- C2: in the ambiguous state xml_check = 1 (entered after an
    ImageTerminator), a non-terminator packet whose first 10 bytes equal
    "<ROEIMAGE>" is classified CatalogFragment and commits the state to the
    catalog stream (xml_check = 2); any other content is classified
    ImageFragment and commits to the image stream (xml_check = 0); once
    committed, classification of further non-terminator packets depends only
    on the committed state, never on content, and appends go to the
    committed stream until the next terminator. -/
theorem c2_ambiguous_sniff_then_commit (s : MachState) (p : List Nat) (ts : String)
    (e : Nat) (hxc : s.xml_check = 1) (h16 : p.length ≠ 16) (h14 : p.length ≠ 14) :
    (10 ≤ p.length → (sniff p = true ↔ p.take 10 = ROEIMAGE))
  ∧ (sniff p = true → classify 1 p = PacketKind.CatalogFragment
       ∧ ∃ s2, (mainStep s (ReadResult.data p) ts p.length true e).2 = StepRes.next s2
           ∧ s2.xml_check = 2 ∧ s2.imageStaging = s.imageStaging
           ∧ s2.index = s.index + 1)
  ∧ (sniff p = false → classify 1 p = PacketKind.ImageFragment
       ∧ ∃ s2, (mainStep s (ReadResult.data p) ts p.length true e).2 = StepRes.next s2
           ∧ s2.xml_check = 0 ∧ s2.catalogFile = s.catalogFile
           ∧ s2.imagePos = s.imagePos + p.length ∧ s2.index = s.index + 1)
  ∧ (∀ (t : MachState) (q : List Nat), q.length ≠ 16 → q.length ≠ 14 →
       (classify 2 q = PacketKind.CatalogFragment
          ∧ classify 0 q = PacketKind.ImageFragment)
       ∧ (t.xml_check = 2 →
            ∃ t2, (mainStep t (ReadResult.data q) ts q.length true e).2 = StepRes.next t2
              ∧ t2.xml_check = 2 ∧ t2.imageStaging = t.imageStaging
              ∧ t2.catalogPos = t.catalogPos + q.length + 1)
       ∧ (t.xml_check = 0 →
            ∃ t2, (mainStep t (ReadResult.data q) ts q.length true e).2 = StepRes.next t2
              ∧ t2.xml_check = 0 ∧ t2.catalogFile = t.catalogFile
              ∧ t2.imagePos = t.imagePos + q.length)) := by
  refine ⟨?_, ?_, ?_, ?_⟩
  · intro hlen
    unfold sniff
    rw [List.take_append_of_le_length hlen]
    simp
  · intro hs
    refine ⟨by simp [classify, h16, h14, hs], ?_⟩
    by_cases hxm : s.xmlCount > 0 <;>
      simp [mainStep, h16, h14, dataStep, sniffPhase, hxc, hs, hxm, catalogWriteStep]
  · intro hs
    refine ⟨by simp [classify, h16, h14, hs], ?_⟩
    simp [mainStep, h16, h14, dataStep, sniffPhase, hxc, hs, imageWriteStep]
  · intro t q hq16 hq14
    refine ⟨⟨by simp [classify, hq16, hq14], by simp [classify, hq16, hq14]⟩, ?_, ?_⟩
    · intro ht
      simp [mainStep, hq16, hq14, dataStep, sniffPhase, ht, catalogWriteStep]
    · intro ht
      simp [mainStep, hq16, hq14, dataStep, sniffPhase, ht, imageWriteStep]

/-- C2 witness: a concrete ambiguous state; a 12-byte packet starting with
    the marker commits to the catalog, a 13-byte packet with other content
    commits to the image stream. -/
theorem c2_witness :
    (sniff (bytesOf "<ROEIMAGE>ab") = true →
       classify 1 (bytesOf "<ROEIMAGE>ab") = PacketKind.CatalogFragment
       ∧ ∃ s2, (mainStep { initClean with xml_check := 1 }
             (ReadResult.data (bytesOf "<ROEIMAGE>ab")) "t1"
             (bytesOf "<ROEIMAGE>ab").length true 0).2 = StepRes.next s2
           ∧ s2.xml_check = 2
           ∧ s2.imageStaging = MachState.imageStaging { initClean with xml_check := 1 }
           ∧ s2.index = MachState.index { initClean with xml_check := 1 } + 1)
  ∧ (sniff (bytesOf "image-data-xx") = false →
       classify 1 (bytesOf "image-data-xx") = PacketKind.ImageFragment
       ∧ ∃ s2, (mainStep { initClean with xml_check := 1 }
             (ReadResult.data (bytesOf "image-data-xx")) "t1"
             (bytesOf "image-data-xx").length true 0).2 = StepRes.next s2
           ∧ s2.xml_check = 0
           ∧ s2.catalogFile = MachState.catalogFile { initClean with xml_check := 1 }
           ∧ s2.imagePos = MachState.imagePos { initClean with xml_check := 1 }
               + (bytesOf "image-data-xx").length
           ∧ s2.index = MachState.index { initClean with xml_check := 1 } + 1) :=
  ⟨(c2_ambiguous_sniff_then_commit { initClean with xml_check := 1 }
      (bytesOf "<ROEIMAGE>ab") "t1" 0 rfl (by decide) (by decide)).2.1,
   (c2_ambiguous_sniff_then_commit { initClean with xml_check := 1 }
      (bytesOf "image-data-xx") "t1" 0 rfl (by decide) (by decide)).2.2.1⟩

/-- C7: a read failing with errno 4 (EINTR, interrupted by the user) ends
    the loop as a clean shutdown: the teardown runs (deassert RTS/DTR,
    close the device descriptor, close the image stream) and the process
    exits with status 0. -/
theorem c7_interrupt_clean_shutdown (ct : Nat) (s : MachState) (acc : List Action)
    (es : List Event) (e : Event) (h : e.rd = ReadResult.err 4) :
    ∃ a, runEvents ct s acc (e :: es) = RunResult.exited 0 a
      ∧ Action.logDiag "receiveTM interrupted" ∈ a
      ∧ teardownActs <:+ a
      ∧ Action.deassertLines ∈ teardownActs
      ∧ Action.closeDevice ∈ teardownActs
      ∧ Action.closeImage ∈ teardownActs := by
  refine ⟨acc ++ ((if e.crc ≠ ct then [Action.logCrcFail] else [])
      ++ [Action.logDiag "receiveTM interrupted"]) ++ teardownActs, ?_, ?_, ?_, ?_, ?_, ?_⟩
  · simp [runEvents, loopIter, mainStep, h]
  · simp
  · exact List.suffix_append _ _
  · simp [teardownActs]
  · simp [teardownActs]
  · simp [teardownActs]

/-- C7 witness: an interrupted read on the clean start state. -/
theorem c7_witness :
    ∃ a, runEvents 0 initClean [] [⟨0, ReadResult.err 4, "t1", 0, true, 0⟩]
        = RunResult.exited 0 a
      ∧ Action.logDiag "receiveTM interrupted" ∈ a
      ∧ teardownActs <:+ a
      ∧ Action.deassertLines ∈ teardownActs
      ∧ Action.closeDevice ∈ teardownActs
      ∧ Action.closeImage ∈ teardownActs :=
  c7_interrupt_clean_shutdown 0 initClean [] [] ⟨0, ReadResult.err 4, "t1", 0, true, 0⟩ rfl

/-- A partial fwrite return makes the catalog write take the fwrite-error
    break (receiveTM.c lines 362-366). -/
theorem catalogWriteStep_shortWrite (t : MachState) (p : List Nat) (w : Nat) (f : Bool)
    (e : Nat) (hw : w ≠ p.length) :
    catalogWriteStep t p w f e = ([Action.logDiag "fwrite error"],
      StepRes.brk BreakReason.partialWrite
        { t with catalogFile := writeAt t.catalogFile t.catalogPos (p.take (min w p.length)),
                 catalogPos := t.catalogPos + min w p.length }) := by
  simp [catalogWriteStep, hw]

/-- A partial fwrite return makes the image write take the fwrite-error
    break (receiveTM.c lines 379-383). -/
theorem imageWriteStep_shortWrite (t : MachState) (p : List Nat) (w : Nat) (f : Bool)
    (e : Nat) (hw : w ≠ p.length) :
    imageWriteStep t p w f e = ([Action.logDiag "fwrite error"],
      StepRes.brk BreakReason.partialWrite
        { t with imageStaging := writeAt t.imageStaging t.imagePos (p.take (min w p.length)),
                 imagePos := t.imagePos + min w p.length }) := by
  simp [imageWriteStep, hw]

/-- Whatever the state, a short fwrite on a data packet ends the iteration
    with the partial-write break and the fwrite diagnostic. -/
theorem mainStep_partialWrite (s : MachState) (p : List Nat) (ts : String) (w : Nat)
    (f : Bool) (e : Nat) (h16 : p.length ≠ 16) (h14 : p.length ≠ 14)
    (hw : w ≠ p.length) :
    (mainStep s (ReadResult.data p) ts w f e).1
        = (sniffPhase s p ts).1 ++ [Action.logDiag "fwrite error"]
  ∧ ∃ s2, (mainStep s (ReadResult.data p) ts w f e).2
        = StepRes.brk BreakReason.partialWrite s2 := by
  simp only [mainStep]
  rw [if_neg h16, if_neg h14]
  simp only [dataStep]
  split
  · rw [catalogWriteStep_shortWrite _ p w f e hw]
    exact ⟨rfl, _, rfl⟩
  · rw [imageWriteStep_shortWrite _ p w f e hw]
    exact ⟨rfl, _, rfl⟩

/-- C6 counterexample: a zero-byte read aborts the loop with the diagnostic,
    but the process then runs the ordinary teardown and exits with status 0,
    not with a non-zero status as claimed. -/
theorem c6_counterexample :
    runEvents 0 initClean [] [⟨0, ReadResult.eof, "t1", 0, true, 0⟩]
      = RunResult.exited 0
          ([Action.logDiag "program ran before failing",
            Action.logDiag "read returned with no data - set NONBLOCK mode to continue"]
           ++ teardownActs)
  ∧ RunResult.exitCode (runEvents 0 initClean [] [⟨0, ReadResult.eof, "t1", 0, true, 0⟩])
      = some 0 := by
  exact ⟨rfl, rfl⟩

/-- C6 amended: when a receive returns zero bytes, or a fragment write
    writes fewer bytes than requested, the loop aborts at once (no retry:
    later events are never processed), a diagnostic is reported, and the
    process exits through the ordinary teardown with status 0 (the code
    breaks to the common exit path and main returns 0). -/
theorem c6_fatal_aborts_exit_zero (ct : Nat) (s : MachState) (acc : List Action)
    (es : List Event) (e : Event) :
    (e.rd = ReadResult.eof →
       ∃ a, runEvents ct s acc (e :: es) = RunResult.exited 0 a
         ∧ Action.logDiag "read returned with no data - set NONBLOCK mode to continue" ∈ a
         ∧ teardownActs <:+ a)
  ∧ (∀ p, e.rd = ReadResult.data p → p.length ≠ 16 → p.length ≠ 14 →
       e.wcount ≠ p.length →
       ∃ a, runEvents ct s acc (e :: es) = RunResult.exited 0 a
         ∧ Action.logDiag "fwrite error" ∈ a
         ∧ teardownActs <:+ a) := by
  constructor
  · intro h
    refine ⟨acc ++ ((if e.crc ≠ ct then [Action.logCrcFail] else [])
        ++ [Action.logDiag "program ran before failing",
            Action.logDiag "read returned with no data - set NONBLOCK mode to continue"])
        ++ teardownActs, ?_, by simp, List.suffix_append _ _⟩
    simp [runEvents, loopIter, mainStep, h]
  · intro p hrd h16 h14 hw
    obtain ⟨hacts, s2, hres⟩ :=
      mainStep_partialWrite s p e.ts e.wcount e.flushOk e.eno h16 h14 hw
    refine ⟨acc ++ ((if e.crc ≠ ct then [Action.logCrcFail] else [])
        ++ ((sniffPhase s p e.ts).1 ++ [Action.logDiag "fwrite error"]))
        ++ teardownActs, ?_, by simp, List.suffix_append _ _⟩
    simp [runEvents, loopIter, hrd, hacts, hres]

/-- C6 witness: concrete zero-read and short-write events. -/
theorem c6_witness :
    (∃ a, runEvents 0 initClean [] [⟨0, ReadResult.eof, "t1", 0, true, 0⟩]
        = RunResult.exited 0 a
      ∧ Action.logDiag "read returned with no data - set NONBLOCK mode to continue" ∈ a
      ∧ teardownActs <:+ a)
  ∧ (∃ a, runEvents 0 sWritingCatalog []
          [⟨0, ReadResult.data (bytesOf "entry"), "t1", 3, true, 0⟩]
        = RunResult.exited 0 a
      ∧ Action.logDiag "fwrite error" ∈ a
      ∧ teardownActs <:+ a) :=
  ⟨(c6_fatal_aborts_exit_zero 0 initClean [] []
      ⟨0, ReadResult.eof, "t1", 0, true, 0⟩).1 rfl,
   (c6_fatal_aborts_exit_zero 0 sWritingCatalog [] []
      ⟨0, ReadResult.data (bytesOf "entry"), "t1", 3, true, 0⟩).2
     (bytesOf "entry") rfl (by decide) (by decide) (by decide)⟩

/-- The catalog fragment written by the C9 and C3 evaluations. -/
def entryBytes : List Nat := bytesOf "entry"

/-- C9: after a catalog-fragment append the code flushes fp, the image
    handle, not outxml, the handle the fragment's bytes were just written
    to (receiveTM.c line 367): the catalog write branch never issues a
    flush of the catalog handle, and on the concrete fragment the bytes
    demonstrably went to the catalog file while only the image handle was
    flushed. -/
theorem c9_catalog_flush_wrong_handle :
    (∀ (t : MachState) (p : List Nat) (w : Nat) (f : Bool) (e : Nat),
        Action.flushCatalog ∉ (catalogWriteStep t p w f e).1)
  ∧ Action.flushImage ∈
      (mainStep sWritingCatalog (ReadResult.data entryBytes) "t1"
        entryBytes.length true 0).1
  ∧ Action.flushCatalog ∉
      (mainStep sWritingCatalog (ReadResult.data entryBytes) "t1"
        entryBytes.length true 0).1
  ∧ Option.map MachState.catalogFile
      (StepRes.nextState
        (mainStep sWritingCatalog (ReadResult.data entryBytes) "t1"
          entryBytes.length true 0).2)
      = some (writeAt freshCatalog freshCatalogPos (entryBytes ++ NL))
  ∧ Option.map MachState.imageStaging
      (StepRes.nextState
        (mainStep sWritingCatalog (ReadResult.data entryBytes) "t1"
          entryBytes.length true 0).2)
      = some [] := by
  refine ⟨?_, by decide, by decide, by decide, by decide⟩
  intro t p w f e
  unfold catalogWriteStep
  dsimp only
  split_ifs <;> simp

/-- Does the byte sequence needle occur anywhere inside hay? -/
def containsSeq (hay needle : List Nat) : Bool :=
  (List.range (hay.length + 1)).any (fun i => ((hay.drop i).take needle.length) == needle)

def evTermFoo : Event := dataEv 0 (bytesOf "foo.png" ++ List.replicate 9 0)

def evCatFrag : Event := dataEv 0 (bytesOf "<ROEIMAGE>entry")

/-- C3 counterexample: from a clean start, after one image terminator and a
    single catalog-fragment append, the live catalog at the rest point
    between appends is the declaration, the opening root element and the
    fragment plus newline; the closing root element has been overwritten by
    the append: it is not a suffix of the file and occurs nowhere in it, so
    the file is not a well-formed document with a closing root tag. -/
theorem c3_counterexample :
    RunResult.catalogOf (runEvents 0 initClean [] [evTermFoo, evCatFrag])
      = XML_DECL ++ CATALOG_OPEN ++ bytesOf "<ROEIMAGE>entry" ++ NL
  ∧ CATALOG_CLOSE.isSuffixOf
      (RunResult.catalogOf (runEvents 0 initClean [] [evTermFoo, evCatFrag])) = false
  ∧ containsSeq
      (RunResult.catalogOf (runEvents 0 initClean [] [evTermFoo, evCatFrag]))
      (bytesOf "</CATALOG>") = false := by
  exact ⟨by decide, by decide, by decide⟩

/-- Writing d (10 bytes or more) then a newline at a cursor 11 bytes before
    end-of-file replaces everything from the cursor on, including the 11
    tail bytes, by d followed by the newline. -/
theorem writeAt_then_nl (c d : List Nat) (pos : Nat)
    (hpos : pos + 11 = c.length) (hd : 10 ≤ d.length) :
    writeAt (writeAt c pos d) (pos + d.length) NL = c.take pos ++ d ++ NL := by
  have hlen : (c.take pos ++ d).length = pos + d.length := by
    simp only [List.length_append, List.length_take]
    omega
  have hX : writeAt c pos d = (c.take pos ++ d) ++ c.drop (pos + d.length) := by
    unfold writeAt
    rw [List.append_assoc]
  have h1 : ((c.take pos ++ d) ++ c.drop (pos + d.length)).take (pos + d.length)
      = c.take pos ++ d := List.take_left' hlen
  have h2a : List.drop (pos + d.length + 1) (c.take pos ++ d) = [] :=
    List.drop_eq_nil_of_le (by rw [hlen]; omega)
  have h2b : pos + d.length + 1 - (c.take pos ++ d).length = 1 := by
    rw [hlen]; omega
  have h2 : ((c.take pos ++ d) ++ c.drop (pos + d.length)).drop (pos + d.length + 1)
      = [] := by
    rw [List.drop_append_eq_append_drop, h2a, h2b, List.nil_append, List.drop_drop]
    exact List.drop_eq_nil_of_le (by omega)
  have hshape : writeAt (writeAt c pos d) (pos + d.length) NL
      = ((c.take pos ++ d) ++ c.drop (pos + d.length)).take (pos + d.length)
        ++ [10]
        ++ ((c.take pos ++ d) ++ c.drop (pos + d.length)).drop (pos + d.length + 1) := by
    rw [hX]
    simp [writeAt, NL]
  rw [hshape, h1, h2]
  simp [NL]

/-- C3 amended: appendEntry (the catalog-fragment write) writes the
    fragment's bytes plus a newline at the pre-positioned cursor, which sits
    at the first byte of the closing root element; the write OVERWRITES the
    closing tag rather than pushing it forward: after the append the bytes
    from the cursor on are exactly the fragment plus newline, so between
    appends the live file carries no closing root element (it is restored
    only by the catalog-terminator handler), and the file is well-formed at
    creation and after finalisation, not at rest points between appends. -/
theorem c3_append_overwrites_closing_tag (s : MachState) (p : List Nat) (ts : String)
    (e : Nat) (hxc : s.xml_check = 2)
    (hpos : s.catalogPos + 11 = s.catalogFile.length)
    (hp : 10 ≤ p.length) (h16 : p.length ≠ 16) (h14 : p.length ≠ 14) :
    ∃ s2, (mainStep s (ReadResult.data p) ts p.length true e).2 = StepRes.next s2
      ∧ s2.catalogFile = s.catalogFile.take s.catalogPos ++ p ++ NL
      ∧ s2.catalogPos = s.catalogPos + p.length + 1
      ∧ s2.catalogFile.drop s.catalogPos = p ++ NL := by
  have hne1 : ¬ s.xml_check = 1 := by omega
  have htk : (s.catalogFile.take s.catalogPos).length = s.catalogPos := by
    simp only [List.length_take]
    omega
  have hmain : (mainStep s (ReadResult.data p) ts p.length true e).2
      = StepRes.next
        { s with catalogFile := s.catalogFile.take s.catalogPos ++ p ++ NL,
                 catalogPos := s.catalogPos + p.length + 1,
                 totalFileSize := s.totalFileSize + p.length, index := s.index + 1 } := by
    simp only [mainStep]
    rw [if_neg h16, if_neg h14]
    simp [dataStep, sniffPhase, hne1, hxc, catalogWriteStep,
          writeAt_then_nl s.catalogFile p s.catalogPos hpos hp]
  refine ⟨_, hmain, rfl, rfl, ?_⟩
  show (s.catalogFile.take s.catalogPos ++ p ++ NL).drop s.catalogPos = p ++ NL
  rw [List.append_assoc]
  exact List.drop_left' htk

/-- C3 amended witness: the first append after a fresh catalog creation. -/
theorem c3_witness :
    ∃ s2, (mainStep sWritingCatalog (ReadResult.data (bytesOf "<ROEIMAGE>entry")) "t1"
        (bytesOf "<ROEIMAGE>entry").length true 0).2 = StepRes.next s2
      ∧ s2.catalogFile = sWritingCatalog.catalogFile.take sWritingCatalog.catalogPos
          ++ bytesOf "<ROEIMAGE>entry" ++ NL
      ∧ s2.catalogPos = sWritingCatalog.catalogPos + (bytesOf "<ROEIMAGE>entry").length + 1
      ∧ s2.catalogFile.drop sWritingCatalog.catalogPos = bytesOf "<ROEIMAGE>entry" ++ NL :=
  c3_append_overwrites_closing_tag sWritingCatalog (bytesOf "<ROEIMAGE>entry") "t1" 0
    rfl (by decide) (by decide) (by decide) (by decide)

/-- Running the loop over a concatenation of event lists composes. -/
theorem runEvents_append (es1 es2 : List Event) :
    ∀ (ct : Nat) (s : MachState) (acc : List Action),
      runEvents ct s acc (es1 ++ es2) =
        (match runEvents ct s acc es1 with
         | RunResult.running ct2 s2 a2 => runEvents ct2 s2 a2 es2
         | r => r) := by
  induction es1 with
  | nil => intro ct s acc; rfl
  | cons e es ih =>
    intro ct s acc
    rcases hl : loopIter ct s e with ⟨a, ct2, r⟩
    cases r with
    | next s2 => simp [runEvents, hl, ih]
    | brk reason s2 => simp [runEvents, hl]
    | ret code s2 => simp [runEvents, hl]

/-- Image-fragment events accumulate in the staging file in order: from any
    state committed to the image stream whose write cursor sits at
    end-of-staging, a run of full-write image-fragment events appends the
    concatenation of the fragments and bumps the counters, touching nothing
    else. -/
theorem imageFragsRun (c : Nat) (frags : List (List Nat)) :
    ∀ (s : MachState) (acc : List Action),
      s.xml_check = 0 →
      s.imagePos = s.imageStaging.length →
      (∀ f ∈ frags, f.length ≠ 0 ∧ f.length ≠ 16 ∧ f.length ≠ 14) →
      ∃ a, runEvents c s acc (frags.map (dataEv c)) =
        RunResult.running c
          { s with imageStaging := s.imageStaging ++ frags.flatten,
                   imagePos := s.imagePos + frags.flatten.length,
                   totalFileSize := s.totalFileSize + frags.flatten.length,
                   index := s.index + frags.length } a := by
  induction frags with
  | nil =>
    intro s acc h0 h1 h2
    exact ⟨acc, by simp [runEvents]⟩
  | cons f fs ih =>
    intro s acc h0 h1 h2
    obtain ⟨hf0, hf16, hf14⟩ := h2 f (by simp)
    have hstep : loopIter c s (dataEv c f) =
        ([Action.flushImage], c, StepRes.next
          { s with imageStaging := s.imageStaging ++ f,
                   imagePos := s.imagePos + f.length,
                   totalFileSize := s.totalFileSize + f.length,
                   index := s.index + 1 }) := by
      simp [loopIter, dataEv, mainStep, hf16, hf14, dataStep, sniffPhase, h0,
            imageWriteStep, h1, writeAt_at_end]
    obtain ⟨a, ha⟩ := ih
      { s with imageStaging := s.imageStaging ++ f,
               imagePos := s.imagePos + f.length,
               totalFileSize := s.totalFileSize + f.length,
               index := s.index + 1 }
      (acc ++ [Action.flushImage]) h0 (by simp [h1]) (fun g hg => h2 g (by simp [hg]))
    refine ⟨a, ?_⟩
    show runEvents c s acc (dataEv c f :: fs.map (dataEv c)) = _
    simp only [runEvents, hstep]
    rw [ha]
    simp [List.flatten_cons, List.append_assoc, Nat.add_assoc, Nat.add_comm,
          Nat.add_left_comm]

/-- C4: an ImageTerminator (16-byte packet) arriving after a run of image
    fragments makes the handler flush and close the staging stream, rename
    the staging path to the archive path named by the terminator payload,
    recreate the staging file empty, and zero the per-artifact counters: the
    archived entry holds exactly the accumulated fragment bytes and the
    staging file is empty immediately after, with the calls in that order. -/
theorem c4_image_terminator_archives (c : Nat) (frags : List (List Nat)) (p : List Nat)
    (s : MachState) (hxc : s.xml_check = 0) (hst : s.imageStaging = [])
    (hpos : s.imagePos = 0)
    (hfr : ∀ f ∈ frags, f.length ≠ 0 ∧ f.length ≠ 16 ∧ f.length ≠ 14)
    (hp : p.length = 16) :
    ∃ pre s2,
      runEvents c s [] (frags.map (dataEv c) ++ [dataEv c p]) =
        RunResult.running c s2
          (pre ++ [Action.flushImage, Action.closeImage,
                   Action.renameImageTo (ArchPath.imageArch (cstr p)),
                   Action.openImageStaging])
      ∧ s2.archives = (ArchPath.imageArch (cstr p), frags.flatten) :: s.archives
      ∧ s2.imageStaging = [] ∧ s2.imagePos = 0
      ∧ s2.totalFileSize = 0 ∧ s2.index = 0 ∧ s2.xml_check = 1 := by
  obtain ⟨a, ha⟩ := imageFragsRun c frags s [] hxc (by simp [hpos, hst]) hfr
  have hterm : loopIter c
      { s with imageStaging := s.imageStaging ++ frags.flatten,
               imagePos := s.imagePos + frags.flatten.length,
               totalFileSize := s.totalFileSize + frags.flatten.length,
               index := s.index + frags.length } (dataEv c p) =
      ([Action.flushImage, Action.closeImage,
        Action.renameImageTo (ArchPath.imageArch (cstr p)), Action.openImageStaging],
       c, StepRes.next
        { s with archives := (ArchPath.imageArch (cstr p),
                   s.imageStaging ++ frags.flatten) :: s.archives,
                 imageStaging := [], imagePos := 0,
                 xml_check := 1, totalFileSize := 0, index := 0 }) := by
    simp [loopIter, dataEv, mainStep, hp, imageTermStep]
  refine ⟨a, { s with
      archives := (ArchPath.imageArch (cstr p), s.imageStaging ++ frags.flatten) :: s.archives,
      imageStaging := [], imagePos := 0,
      xml_check := 1, totalFileSize := 0, index := 0 },
    ?_, ?_, rfl, rfl, rfl, rfl, rfl⟩
  · rw [runEvents_append, ha]
    show runEvents c _ a [dataEv c p] = _
    simp only [runEvents, hterm]
  · simp [hst]

/-- C4 witness: two fragments of 100 and 50 bytes, then a terminator naming
    foo.png: the archive receives the 150 accumulated bytes under that name,
    the staging file is empty again and the counters are zero. -/
theorem c4_witness :
    ∃ pre s2,
      runEvents 0 initClean []
        ([List.replicate 100 7, List.replicate 50 9].map (dataEv 0)
          ++ [dataEv 0 (bytesOf "foo.png" ++ List.replicate 9 0)]) =
        RunResult.running 0 s2
          (pre ++ [Action.flushImage, Action.closeImage,
                   Action.renameImageTo (ArchPath.imageArch
                     (cstr (bytesOf "foo.png" ++ List.replicate 9 0))),
                   Action.openImageStaging])
      ∧ s2.archives = (ArchPath.imageArch (cstr (bytesOf "foo.png" ++ List.replicate 9 0)),
          [List.replicate 100 7, List.replicate 50 9].flatten) :: initClean.archives
      ∧ s2.imageStaging = [] ∧ s2.imagePos = 0
      ∧ s2.totalFileSize = 0 ∧ s2.index = 0 ∧ s2.xml_check = 1 :=
  c4_image_terminator_archives 0 [List.replicate 100 7, List.replicate 50 9]
    (bytesOf "foo.png" ++ List.replicate 9 0) initClean rfl rfl rfl
    (by decide) (by decide)

end ReceiveTM
